import Mathlib

/-!
Verification development for the middleware-driven HTTP client library
(package `http`): middleware pipeline composition, execution state,
retry engine, repeatable body buffer, status-code policy filter,
timeout selection and the pooled executor handle.

The Go source is shallowly embedded: endpoints become pure functions from
an explicit state to a result, middlewares become endpoint transformers,
byte streams become lists of naturals, and durations become naturals in
milliseconds.  Components whose implementation file is absent from the
sources (the execution-state accessor, the internal context middleware,
the retry engine and the status-code filter constructors) are modelled
from the specification and are marked as such in their doc comments.
-/

namespace QHttp

/-- An endpoint (Go `Endpoint = func(*http.Request) (*http.Response, error)`)
is embedded as a function from an explicit per-call state `σ` to a result `ρ`. -/
def Endpoint (σ ρ : Type) : Type := σ → ρ

/-- A middleware (Go `Middleware = func(Endpoint) Endpoint`) wraps an endpoint. -/
def Middleware (σ ρ : Type) : Type := Endpoint σ ρ → Endpoint σ ρ

/-- Embedding of the Go loop
`for i := len(ms)-1; i >= 0; i-- { next = ms[i](next) }`
from `clientImpl.makeFinalHandler` (client.go): the resulting handler is
`ms[0] (ms[1] (... (ms[n-1] next)))`, i.e. a right fold. -/
def chainMiddlewares {σ ρ : Type} (ms : List (Middleware σ ρ)) (next : Endpoint σ ρ) :
    Endpoint σ ρ :=
  ms.foldr (fun m acc => m acc) next

/-- Embedding of `clientImpl.makeFinalHandler` (client.go): the innermost
executor `base` is wrapped by the internal context middleware `ctxMw`
(Go `middlewareContext`), then the request-level option middlewares, then
the client-level middlewares, and finally the state initializer `initCtxMw`
(Go `middlewareInitCtx`) outermost.  The two internal middlewares live in a
source file absent from the sources, so they are passed as parameters and
instantiated with spec-modelled versions per claim. -/
def makeFinalHandler {σ ρ : Type} (initCtxMw ctxMw : Middleware σ ρ)
    (clientMws extraMws : List (Middleware σ ρ)) (base : Endpoint σ ρ) :
    Endpoint σ ρ :=
  initCtxMw (chainMiddlewares clientMws (chainMiddlewares extraMws (ctxMw base)))

/-- Embedding of `clientImpl.AddMiddleware` (client.go):
`client.middlewares = append(client.middlewares, m...)`. -/
def addMiddleware {σ ρ : Type} (cur ms : List (Middleware σ ρ)) :
    List (Middleware σ ρ) :=
  cur ++ ms

/-- Embedding of `clientImpl.PrependMiddleware` (client.go):
`client.middlewares = append(m, client.middlewares...)`. -/
def prependMiddleware {σ ρ : Type} (cur ms : List (Middleware σ ρ)) :
    List (Middleware σ ρ) :=
  ms ++ cur

/-- Embedding of `WithMiddleware` (options.go):
`opt.Middlewares = append(opt.Middlewares, m)`. -/
def withMiddleware {σ ρ : Type} (cur : List (Middleware σ ρ)) (m : Middleware σ ρ) :
    List (Middleware σ ρ) :=
  cur ++ [m]

/-- Embedding of `WithPrependMiddleware` (options.go):
`opt.Middlewares = append([]Middleware{m}, opt.Middlewares...)`. -/
def withPrependMiddleware {σ ρ : Type} (cur : List (Middleware σ ρ)) (m : Middleware σ ρ) :
    List (Middleware σ ρ) :=
  m :: cur

/-! ### Claim C1: middleware execution order

The state is the observation trace (the test's `SyncList`): each tracing
middleware appends its label before delegating, exactly as in
`TestMiddlewareSequence` (client_test.go). -/

/-- A tracing middleware: appends its label to the trace and delegates,
mirroring the closures built in `TestMiddlewareSequence`. -/
def traceMw (s : String) : Middleware (List String) (List String) :=
  fun next tr => next (tr ++ [s])

/-- Modelled from the spec: `middlewareInitCtx` (absent source file) is the
state initializer; it creates the Execution State and appends nothing to the
user-visible trace, so on the trace state it is transparent. -/
def middlewareInitCtxTrace : Middleware (List String) (List String) :=
  fun next => next

/-- Modelled from the spec: `middlewareContext` (absent source file) applies
the internal status/retry/debug stages; it appends nothing to the
user-visible trace, so on the trace state it is transparent. -/
def middlewareContextTrace : Middleware (List String) (List String) :=
  fun next => next

/-- The client middleware list of the claim: `AddMiddleware` 1, 2, 3 in
sequence, then `PrependMiddleware` 4 (as in `TestMiddlewareSequence`). -/
def clientMwsSeq : List (Middleware (List String) (List String)) :=
  prependMiddleware
    (addMiddleware (addMiddleware (addMiddleware [] [traceMw "1"]) [traceMw "2"]) [traceMw "3"])
    [traceMw "4"]

/-- The per-call option middleware list of the claim: `WithMiddleware` a, b, c
in sequence, then `WithPrependMiddleware` P (as in `TestMiddlewareSequence`). -/
def optionMwsSeq : List (Middleware (List String) (List String)) :=
  withPrependMiddleware
    (withMiddleware (withMiddleware (withMiddleware [] (traceMw "a")) (traceMw "b")) (traceMw "c"))
    (traceMw "P")

/-- Running a chain of tracing middlewares appends the labels in list order. -/
theorem chain_traceMw_eq (cs : List String) (next : Endpoint (List String) (List String)) :
    ∀ tr : List String,
      chainMiddlewares (cs.map traceMw) next tr = next (tr ++ cs) := by
  induction cs with
  | nil => intro tr; simp [chainMiddlewares]
  | cons c cs ih =>
    intro tr
    have h : chainMiddlewares ((c :: cs).map traceMw) next tr
        = chainMiddlewares (cs.map traceMw) next (tr ++ [c]) := rfl
    rw [h, ih (tr ++ [c])]
    simp

/-! ### Claim C4: repeatable body buffer -/

/-- A response/request body stream (Go `io.ReadCloser`), embedded as either a
once-readable stream of remaining bytes (e.g. `io.NopCloser`) or the library's
`repeatableReader` (body_reader.go), which keeps the full data plus a cursor. -/
inductive Body where
  | stream (remaining : List Nat)
  | repeatable (data : List Nat) (pos : Nat)
deriving DecidableEq, Repr

/-- Reading a body to the end (Go `io.ReadAll`): a plain stream yields its
remaining bytes and is left empty; a `repeatableReader` yields the bytes from
its cursor onward and leaves the cursor at the end. -/
def readAllBody : Body → List Nat × Body
  | .stream rem => (rem, .stream [])
  | .repeatable data pos => (data.drop pos, .repeatable data data.length)

/-- Embedding of closing a body: for a plain `io.NopCloser` stream this is a
no-op; for a `repeatableReader`, `Close` calls `SeekStart` (body_reader.go),
rewinding the cursor to the start instead of discarding the data. -/
def closeBody : Body → Body
  | .stream rem => .stream rem
  | .repeatable data _ => .repeatable data 0

/-- Embedding of `RepeatableReadResponse` (body_reader.go) on the optional
response body: a nil response or body yields no data; an installed
`repeatableReader` is read to the end and then closed (the deferred
`rr.Close()` rewinds it); a plain body is read to the end, closed, and
replaced by a fresh `repeatableReader` over the captured bytes. -/
def repeatableReadResponse : Option Body → Option Body × List Nat
  | none => (none, [])
  | some b =>
    match b with
    | .repeatable data pos =>
      let r := readAllBody (.repeatable data pos)
      (some (closeBody r.2), r.1)
    | .stream rem =>
      let r := readAllBody (.stream rem)
      (some (.repeatable r.1 0), r.1)

/-- Embedding of `RepeatableReadRequest` (body_reader.go); identical to the
response variant except that a nil body is the only guarded case. -/
def repeatableReadRequest : Option Body → Option Body × List Nat
  | none => (none, [])
  | some b =>
    match b with
    | .repeatable data pos =>
      let r := readAllBody (.repeatable data pos)
      (some (closeBody r.2), r.1)
    | .stream rem =>
      let r := readAllBody (.stream rem)
      (some (.repeatable r.1 0), r.1)

/-! ### Shared response/result model (claims C2, C3, C5, C7, C8) -/

/-- An embedded `*http.Response` as seen by the retry predicate and the
status-code filter: numeric status code, status line, body text. -/
structure Resp where
  statusCode : Nat
  status : String
  body : String
deriving DecidableEq, Repr

/-- The result of one attempt: a `(response, error)` pair.  Both components
are optional, matching the spec's Response model where a response may coexist
with an error. -/
structure AttemptResult where
  res : Option Resp
  err : Option String
deriving DecidableEq, Repr

/-- Embedding of `RetryOption` (options.go).  The wait bounds only shape the
backoff delay, which has no effect on attempt counts or results, so they are
omitted from the model. -/
structure RetryOption where
  retryMax : Nat
  checkResponse : Option (AttemptResult → Bool) := none

/-- Modelled from the spec: the Execution State (`getValue`'s value type, in
an absent source file).  `timeout = none` models the `timeoutNotSet`
sentinel, distinct from `some 0`; `retryOption` is the scalar retry field. -/
structure ReqValue where
  timeout : Option Nat := none
  retryOption : Option RetryOption := none

/-- The initial Execution State created by the state initializer: no timeout
set (the sentinel), no retry option. -/
def initReqValue : ReqValue := {}

/-- Embedding of the middleware installed by `SetTimeout` (client.go) and
`WithTimeout` (options.go): `getValue(req).Timeout = tm; return next(req)`. -/
def setTimeoutMw {ρ : Type} (tm : Nat) : Middleware ReqValue ρ :=
  fun next st => next { st with timeout := some tm }

/-- Embedding of the middleware installed by `SetRetry` (client.go) and
`WithRetry` (options.go): `getValue(req).RetryOption = &opt; return next(req)`. -/
def setRetryMw {ρ : Type} (opt : RetryOption) : Middleware ReqValue ρ :=
  fun next st => next { st with retryOption := some opt }

/-- Modelled from the spec: the state initializer (`middlewareInitCtx`, in an
absent source file) creates the Execution State; since the model passes the
initial state explicitly, it is the identity on the chain. -/
def middlewareInitCtxState {ρ : Type} : Middleware ReqValue ρ :=
  fun next => next

/-- Modelled from the spec: the internal context middleware
(`middlewareContext`, in an absent source file) restricted to pass-through
behaviour for claims that do not exercise retry or status policy. -/
def middlewareContextState {ρ : Type} : Middleware ReqValue ρ :=
  fun next => next

/-! ### Claim C3: timeout selection -/

/-- Embedding of `defaultConnectTimeout = 15 * time.Second` (client.go),
in milliseconds. -/
def defaultConnectTimeout : Nat := 15000

/-- Embedding of the executor's timeout choice in `makeFinalHandler`
(client.go lines 285-289):
`timeout := defaultConnectTimeout; if gv != nil && gv.Timeout != timeoutNotSet { timeout = gv.Timeout }`.
In the model the state always exists, and the sentinel is `none`. -/
def chooseTimeout (gv : ReqValue) : Nat :=
  match gv.timeout with
  | some t => t
  | none => defaultConnectTimeout

/-- Modelled from the spec: the executor run against a handler that sleeps
`sleep` time-units fails with a timeout error exactly when the sleep exceeds
the effective timeout chosen by `chooseTimeout`, and succeeds otherwise. -/
def timedExec (sleep : Nat) : Endpoint ReqValue AttemptResult :=
  fun gv =>
    if chooseTimeout gv < sleep then { res := none, err := some "timeout" }
    else { res := some { statusCode := 200, status := "200 OK", body := "OK" }, err := none }

/-- The full pipeline of the timeout claim: client-level `SetTimeout`
middlewares, per-call `WithTimeout` middlewares, and the timed executor,
composed by `makeFinalHandler` and run from the initial state. -/
def timeoutPipeline (clientTs perCallTs : List Nat) (sleep : Nat) : AttemptResult :=
  makeFinalHandler middlewareInitCtxState middlewareContextState
    (clientTs.map setTimeoutMw) (perCallTs.map setTimeoutMw)
    (timedExec sleep) initReqValue

/-- The Execution State reaching the executor after client-level and per-call
timeout middlewares have run. -/
def timeoutFinalState (clientTs perCallTs : List Nat) : ReqValue :=
  makeFinalHandler middlewareInitCtxState middlewareContextState
    (clientTs.map setTimeoutMw) (perCallTs.map setTimeoutMw)
    id initReqValue

/-! ### Claims C2, C7, C8: retry engine -/

/-- Modelled from the spec: the retry decision. A configured `shouldRetry`
predicate is consulted on the attempt's `(response, error)` pair; with no
predicate supplied, the engine retries only transport-level errors and never
a received response. -/
def retryDecide (opt : RetryOption) (r : AttemptResult) : Bool :=
  match opt.checkResponse with
  | some f => f r
  | none => r.err.isSome

/-- Modelled from the spec: the retry loop (`Attempting → Evaluating →
{Retrying | Done}`).  `i` is the zero-based attempt index, `rem` the number of
retries still allowed.  When retries are exhausted the engine terminates with
that attempt's result; otherwise it re-attempts while the decision holds.
Backoff delays and retry hooks do not affect attempt counts or results and
are omitted. -/
def retryLoop (opt : RetryOption) (inner : Nat → AttemptResult) :
    Nat → Nat → Nat × AttemptResult
  | i, 0 => (i + 1, inner i)
  | i, rem + 1 =>
    let r := inner i
    if retryDecide opt r then retryLoop opt inner (i + 1) rem
    else (i + 1, r)

/-- Modelled from the spec: one full run of the retry engine, returning the
number of attempts performed and the final attempt's result.  `retryMax = 0`
allows no retries, hence exactly one attempt. -/
def retryRun (opt : RetryOption) (inner : Nat → AttemptResult) : Nat × AttemptResult :=
  retryLoop opt inner 0 opt.retryMax

/-- Modelled from the spec: the retry stage of the internal context
middleware.  It reads the final Execution State's retry option; with no
option configured it performs exactly one attempt, otherwise it runs the
retry engine.  `inner` abstracts one executor attempt (here, the mock). -/
def middlewareContextRetry (inner : Nat → AttemptResult) :
    Middleware ReqValue (Nat × AttemptResult) :=
  fun _base st =>
    match st.retryOption with
    | some opt => retryRun opt inner
    | none => (1, inner 0)

/-- The pipeline of the retry-overwrite claim: client-level retry middlewares
and per-call `WithRetry` middlewares write the scalar retry field; the retry
engine then runs on the final state. -/
def retryPipeline (clientOpts perCallOpts : List RetryOption)
    (inner : Nat → AttemptResult) : Nat × AttemptResult :=
  makeFinalHandler middlewareInitCtxState (middlewareContextRetry inner)
    (clientOpts.map setRetryMw) (perCallOpts.map setRetryMw)
    (fun _ => (0, inner 0)) initReqValue

/-! ### Claim C5: status-code policy filter -/

/-- Modelled from the spec: the bounded body prefix included in a policy
error message (the spec fixes no bound; 512 characters is used here). -/
def bodySnippet (s : String) : String :=
  String.mk (s.toList.take 512)

/-- Modelled from the spec: the status-code policy check held by
`MiddlewareSetAllowedStatusCode` / `MiddlewareSetBlockedStatusCode` (absent
source file).  If the allowed set is non-empty and does not contain the
response's status code, or the blocked set contains it, the check produces an
error message carrying the status line and a bounded prefix of the body. -/
def statusCodeCheck (allowed blocked : List Nat) (r : Resp) : Option String :=
  if (!allowed.isEmpty && !allowed.contains r.statusCode) || blocked.contains r.statusCode
  then some (r.status ++ " " ++ bodySnippet r.body)
  else none

/-- Modelled from the spec: the status filter applied to an attempt's result.
A structurally successful response failing the policy becomes an error; every
other result passes through unchanged. -/
def applyStatusFilter (allowed blocked : List Nat) (ar : AttemptResult) : AttemptResult :=
  match ar.res, ar.err with
  | some r, none =>
    match statusCodeCheck allowed blocked r with
    | some msg => { res := some r, err := some msg }
    | none => ar
  | _, _ => ar

/-! ### Claim C6: pooled executor handle -/

/-- Embedding of the pooled `*http.Client` handle: the per-call fields set at
checkout and cleared at release (client.go `poolGetClient` / `poolPutClient`). -/
structure PoolClient where
  transport : Option Nat
  checkRedirect : Option Nat
  jar : Option Nat
  timeout : Nat
deriving DecidableEq, Repr

/-- Embedding of `poolGetClient` (client.go): the handle drawn from the pool
is configured with the client's transport and exactly the one timeout chosen
for the current call; redirect policy and cookie jar are reset. -/
def poolGetClient (tr : Nat) (tm : Nat) (c : PoolClient) : PoolClient :=
  { c with transport := some tr, checkRedirect := none, jar := none, timeout := tm }

/-- Embedding of `poolPutClient` (client.go): every per-call field is cleared
before the handle returns to the pool. -/
def poolPutClient (c : PoolClient) : PoolClient :=
  { c with transport := none, checkRedirect := none, jar := none, timeout := 0 }

/-! ### Claims C9, C10: response wrapper -/

/-- The embedded inner `*http.Response` of the wrapper: only the body matters
for the one-shot-consumption claims; `none` models a nil `Body`. -/
structure GoResponse where
  body : Option (List Nat)
deriving DecidableEq, Repr

/-- Embedding of the `Response` wrapper (response source, third variant):
optional inner response, pending error, and the `read` one-shot flag
(Go `read int32`, 0 or 1). -/
structure RespWrapper where
  response : Option GoResponse
  err : Option String
  read : Bool
deriving DecidableEq, Repr

/-- Embedding of `Response.HandleResult`: if the body was already consumed
(`read`), the stored error is returned and nothing happens; otherwise the
response is marked read, and when an inner response exists and no prior error
is pending, the body handler runs, producing the new error and the bytes it
emitted (the closed-over writer's output). -/
def RespWrapper.handleResult (r : RespWrapper)
    (f : Option (GoResponse → Option String × List Nat)) :
    RespWrapper × Option String × List Nat :=
  if r.read then (r, r.err, [])
  else
    match r.response with
    | none => ({ r with read := true }, r.err, [])
    | some res =>
      match r.err, f with
      | none, some g =>
        let out := g res
        ({ r with read := true, err := out.1 }, out.1, out.2)
      | _, _ => ({ r with read := true }, r.err, [])

/-- Embedding of `Response.Save`: the body handler copies the body bytes to
the writer (a nil body copies nothing). -/
def RespWrapper.save (r : RespWrapper) : RespWrapper × Option String × List Nat :=
  r.handleResult (some fun res => (none, res.body.getD []))

/-- Embedding of `Response.GetBody`: saves into a fresh buffer and returns
its bytes; an error yields no bytes. -/
def RespWrapper.getBody (r : RespWrapper) : RespWrapper × Option String × List Nat :=
  r.save

/-- Embedding of `Response.Error`: `return r.Save(nil)` — consumes and
discards the body, surfacing only the error. -/
def RespWrapper.errorResult (r : RespWrapper) : RespWrapper × Option String :=
  let s := r.save
  (s.1, s.2.1)

/-- Embedding of `buildResponse` (response source, third variant):
`if res == nil { res = &http.Response{} }` — a nil pipeline response is
replaced by an empty response object before wrapping. -/
def buildResponse (res : Option GoResponse) (err : Option String) : RespWrapper :=
  { response := some (res.getD { body := none }), err := err, read := false }

/-- Embedding of the tail of `clientImpl.Do` / `DoRequest` (client.go): every
pipeline outcome `(res, err)`, including the early error returns
`buildResponse(ctx, nil, err)`, is wrapped by `buildResponse`. -/
def clientDoResult (outcome : Option GoResponse × Option String) : RespWrapper :=
  buildResponse outcome.1 outcome.2

/-! ## Theorems -/

/-- The retry loop at attempt index `i` performs at least one more attempt. -/
theorem retryLoop_attempts_ge (opt : RetryOption) (inner : Nat → AttemptResult) :
    ∀ (rem i : Nat), i + 1 ≤ (retryLoop opt inner i rem).1 := by
  intro rem
  induction rem with
  | zero => intro i; simp [retryLoop]
  | succ k ih =>
    intro i
    cases h : retryDecide opt (inner i) with
    | true =>
      have e : retryLoop opt inner i (k + 1) = retryLoop opt inner (i + 1) k := by
        simp [retryLoop, h]
      rw [e]
      exact Nat.le_trans (Nat.le_succ _) (ih (i + 1))
    | false =>
      have e : retryLoop opt inner i (k + 1) = (i + 1, inner i) := by
        simp [retryLoop, h]
      rw [e]

/-- Claim C1: with client middlewares added via `AddMiddleware` in order
1, 2, 3 and a middleware 4 prepended via `PrependMiddleware`, and per-call
middlewares added via `WithMiddleware` in order a, b, c with P prepended via
`WithPrependMiddleware`, the handler composed by `makeFinalHandler` executes
the middlewares in exactly the order 4, 1, 2, 3, P, a, b, c; in general,
client-level middlewares run before per-call ones in their list order. -/
theorem middleware_execution_order :
    (∀ (cs es : List String),
      makeFinalHandler middlewareInitCtxTrace middlewareContextTrace
        (cs.map traceMw) (es.map traceMw) id [] = cs ++ es)
    ∧ String.intercalate ","
        (makeFinalHandler middlewareInitCtxTrace middlewareContextTrace
          clientMwsSeq optionMwsSeq id []) = "4,1,2,3,P,a,b,c" := by
  constructor
  · intro cs es
    show chainMiddlewares (cs.map traceMw)
      (chainMiddlewares (es.map traceMw) id) [] = cs ++ es
    rw [chain_traceMw_eq cs _ [], chain_traceMw_eq es id ([] ++ cs)]
    simp
  · rfl

/-- Claim C4: every byte sequence captured into the repeatable buffer via
`RepeatableReadResponse` or `RepeatableReadRequest` yields exactly the same
bytes on each of three successive read passes, because closing the buffer
rewinds its cursor instead of discarding the data. -/
theorem repeatable_buffer_three_reads (data : List Nat) :
    (repeatableReadResponse (some (Body.stream data))).2 = data
    ∧ (repeatableReadResponse
        (repeatableReadResponse (some (Body.stream data))).1).2 = data
    ∧ (repeatableReadResponse
        (repeatableReadResponse
          (repeatableReadResponse (some (Body.stream data))).1).1).2 = data
    ∧ (repeatableReadRequest (some (Body.stream data))).2 = data
    ∧ (repeatableReadRequest
        (repeatableReadRequest (some (Body.stream data))).1).2 = data
    ∧ (repeatableReadRequest
        (repeatableReadRequest
          (repeatableReadRequest (some (Body.stream data))).1).1).2 = data :=
  ⟨rfl, rfl, rfl, rfl, rfl, rfl⟩

/-- Claim C6: release (`poolPutClient`) clears every per-call field
(transport, redirect policy, cookie jar, timeout) regardless of the handle's
prior state, and checkout (`poolGetClient`) configures the handle identically
no matter which call used it before, with exactly the one timeout chosen for
the current call — so no per-call configuration leaks between calls. -/
theorem pool_handle_isolation :
    (∀ c : PoolClient, poolPutClient c =
      { transport := none, checkRedirect := none, jar := none, timeout := 0 })
    ∧ (∀ (tr tm : Nat) (c c2 : PoolClient),
        poolGetClient tr tm c = poolGetClient tr tm c2)
    ∧ (∀ (tr tm : Nat) (c : PoolClient), (poolGetClient tr tm c).timeout = tm) :=
  ⟨fun _ => rfl, fun _ _ _ _ => rfl, fun _ _ _ => rfl⟩

/-- Claim C10: the response wrapper built by `buildResponse` — and hence the
result of every call made through the client — always contains a non-nil
embedded response object; in particular a nil pipeline response (as in every
error outcome) is replaced by an empty response object. -/
theorem build_response_never_nil :
    (∀ (res : Option GoResponse) (e : Option String),
      (buildResponse res e).response.isSome = true)
    ∧ (∀ outcome : Option GoResponse × Option String,
      (clientDoResult outcome).response.isSome = true)
    ∧ (∀ e : Option String,
      (clientDoResult (none, e)).response = some { body := none }) :=
  ⟨fun _ _ => rfl, fun _ => rfl, fun _ => rfl⟩

/-- Claim C9: the first body-consuming operation marks the body as read via
`HandleResult`; once read, `HandleResult` skips the body handler and returns
the stored error untouched, so after a first successful consumption a second
`GetBody` returns an empty byte slice and no error. -/
theorem one_shot_body_consumption :
    (∀ (r : RespWrapper) (f : Option (GoResponse → Option String × List Nat)),
      r.read = false → ((r.handleResult f).1).read = true)
    ∧ (∀ (r : RespWrapper) (f : Option (GoResponse → Option String × List Nat)),
      r.read = true → r.handleResult f = (r, r.err, []))
    ∧ (∀ r : RespWrapper, r.read = true → r.err = none →
      r.getBody = (r, none, [])) := by
  refine ⟨?_, ?_, ?_⟩
  · intro r f h
    obtain ⟨resp, err, rd⟩ := r
    simp only [RespWrapper.read] at h
    subst h
    cases resp <;> cases err <;> cases f <;> rfl
  · intro r f h
    obtain ⟨resp, err, rd⟩ := r
    simp only [RespWrapper.read] at h
    subst h
    rfl
  · intro r h he
    obtain ⟨resp, err, rd⟩ := r
    simp only [RespWrapper.read] at h
    simp only [RespWrapper.err] at he
    subst h
    subst he
    rfl

/-- Witness for claim C9: a wrapper whose body was consumed successfully is
marked read by the first operation, and a second `GetBody` on a read wrapper
returns empty bytes and no error. -/
theorem one_shot_body_consumption_witness :
    (((RespWrapper.mk (some { body := some [66, 79, 68, 89] }) none false).handleResult
        (some fun res => (none, res.body.getD []))).1).read = true
    ∧ (RespWrapper.mk (some { body := some [66, 79, 68, 89] }) none true).getBody
        = (RespWrapper.mk (some { body := some [66, 79, 68, 89] }) none true, none, []) :=
  ⟨one_shot_body_consumption.1 _ _ rfl, one_shot_body_consumption.2.2 _ rfl rfl⟩

/-- Claim C3: the executor uses the Execution State's timeout exactly when
one is set (the `none` sentinel means unset, falling back to the 15-second
default); because per-call `WithTimeout` middlewares run closer to the
executor than client-level `SetTimeout` ones, the per-call value reaches the
executor; concretely, client=100 with per-call=1 on a handler sleeping 1000
times out, while client=1 with per-call=1000 on a handler sleeping 3
succeeds. -/
theorem timeout_selection :
    (∀ (gv : ReqValue) (t : Nat), gv.timeout = some t → chooseTimeout gv = t)
    ∧ (∀ gv : ReqValue, gv.timeout = none → chooseTimeout gv = defaultConnectTimeout)
    ∧ (∀ a b : Nat, (timeoutFinalState [a] [b]).timeout = some b)
    ∧ timeoutPipeline [100] [1] 1000 = { res := none, err := some "timeout" }
    ∧ timeoutPipeline [1] [1000] 3 =
        { res := some { statusCode := 200, status := "200 OK", body := "OK" }, err := none } := by
  refine ⟨?_, ?_, fun a b => rfl, by decide, by decide⟩
  · intro gv t h
    simp [chooseTimeout, h]
  · intro gv h
    simp [chooseTimeout, h]

/-- Witness for claim C3: the executor's choice evaluated at a state with a
set timeout and at the unset sentinel state. -/
theorem timeout_selection_witness :
    chooseTimeout { timeout := some 3 } = 3
    ∧ chooseTimeout initReqValue = defaultConnectTimeout :=
  ⟨timeout_selection.1 { timeout := some 3 } 3 rfl, timeout_selection.2.1 initReqValue rfl⟩

/-- Claim C2: with `retryMax = 2` and a predicate accepting the first two
attempts' results and rejecting the third, the retry engine invokes the inner
handler exactly 3 times and the call returns the third attempt's result. -/
theorem retry_three_attempts (p : AttemptResult → Bool) (inner : Nat → AttemptResult)
    (h0 : p (inner 0) = true) (h1 : p (inner 1) = true) (h2 : p (inner 2) = false) :
    retryRun { retryMax := 2, checkResponse := some p } inner = (3, inner 2) := by
  simp [retryRun, retryLoop, retryDecide, h0, h1]

/-- Witness for claim C2: the mock server of `TestRetryCheckResponse` — the
first two attempts answer FAIL, the third OK, and the predicate retries on a
FAIL body — yields exactly 3 attempts with the third attempt's result. -/
theorem retry_three_attempts_witness :
    retryRun
      { retryMax := 2,
        checkResponse := some (fun r =>
          match r.res with
          | some x => x.body == "FAIL"
          | none => false) }
      (fun i =>
        { res := some { statusCode := 200, status := "200 OK",
                        body := if i < 2 then "FAIL" else "OK" },
          err := none })
      = (3,
        { res := some { statusCode := 200, status := "200 OK", body := "OK" },
          err := none }) := by
  have h := retry_three_attempts
    (fun r =>
      match r.res with
      | some x => x.body == "FAIL"
      | none => false)
    (fun i =>
      { res := some { statusCode := 200, status := "200 OK",
                      body := if i < 2 then "FAIL" else "OK" },
        err := none })
    (by decide) (by decide) (by decide)
  exact h

/-- Claim C7: the retry option is a scalar Execution-State field for which
the last writer in execution order wins — the per-call `WithRetry` middleware
runs closer to the executor than the client-level retry middleware, so its
option reaches the engine — and `retryMax = 0` disables retries, so a
client-level option with `retryMax = 2` overwritten per-call by
`retryMax = 0` yields exactly one attempt terminating with that attempt's
result. -/
theorem retry_option_last_writer_wins :
    (∀ (a b : RetryOption) (inner : Nat → AttemptResult),
      retryPipeline [a] [b] inner = retryRun b inner)
    ∧ (∀ (inner : Nat → AttemptResult) (cb : Option (AttemptResult → Bool)),
      retryRun { retryMax := 0, checkResponse := cb } inner = (1, inner 0))
    ∧ (∀ inner : Nat → AttemptResult,
      retryPipeline [{ retryMax := 2 }] [{ retryMax := 0 }] inner = (1, inner 0)) :=
  ⟨fun _ _ _ => rfl, fun _ _ => rfl, fun _ => rfl⟩

/-- Claim C8: with no `CheckResponse` predicate configured, the retry engine
retries only attempts that failed with a transport-level error: an attempt
that produced a received response (no error, any status code) is never
retried, while a transport error with retries remaining causes at least a
second attempt. -/
theorem retry_default_transport_only :
    (∀ (m : Nat) (inner : Nat → AttemptResult),
      (inner 0).err = none → retryRun { retryMax := m } inner = (1, inner 0))
    ∧ (∀ (m : Nat) (inner : Nat → AttemptResult) (e : String),
      (inner 0).err = some e → 1 ≤ m → 2 ≤ (retryRun { retryMax := m } inner).1) := by
  constructor
  · intro m inner h
    cases m with
    | zero => rfl
    | succ k =>
      have hd : retryDecide { retryMax := k + 1 } (inner 0) = false := by
        simp [retryDecide, h]
      simp [retryRun, retryLoop, hd]
  · intro m inner e h hm
    obtain ⟨k, rfl⟩ : ∃ k, m = k + 1 := ⟨m - 1, by omega⟩
    have hd : retryDecide { retryMax := k + 1 } (inner 0) = true := by
      simp [retryDecide, h]
    have step : retryRun { retryMax := k + 1 } inner = retryLoop { retryMax := k + 1 } inner 1 k := by
      simp [retryRun, retryLoop, hd]
    rw [step]
    exact retryLoop_attempts_ge _ inner k 1

/-- Witness for claim C8: a mock returning a received response stops after
one attempt even with retries available, while a transport error is retried. -/
theorem retry_default_transport_only_witness :
    retryRun { retryMax := 5 }
      (fun _ =>
        { res := some { statusCode := 500, status := "500 Internal Server Error", body := "E" },
          err := none })
      = (1,
        { res := some { statusCode := 500, status := "500 Internal Server Error", body := "E" },
          err := none })
    ∧ 2 ≤ (retryRun { retryMax := 5 }
        (fun _ => { res := none, err := some "transient network error" })).1 :=
  ⟨retry_default_transport_only.1 5 _ rfl,
    retry_default_transport_only.2 5 _ "transient network error" rfl (by omega)⟩

/-- Claim C5: for every response passing through the status-code policy
filter, if the allowed set is non-empty and does not contain the response's
status code, or the blocked set contains it, the result becomes an error
whose message carries the status line and a prefix of the response body; and
with both sets empty the filter passes every result through unchanged. -/
theorem status_filter_policy :
    (∀ (allowed blocked : List Nat) (r : Resp),
      ((!allowed.isEmpty && !allowed.contains r.statusCode)
        || blocked.contains r.statusCode) = true →
      applyStatusFilter allowed blocked { res := some r, err := none }
        = { res := some r, err := some (r.status ++ " " ++ bodySnippet r.body) })
    ∧ (∀ ar : AttemptResult, applyStatusFilter [] [] ar = ar) := by
  constructor
  · intro allowed blocked r h
    have e : statusCodeCheck allowed blocked r
        = some (r.status ++ " " ++ bodySnippet r.body) := by
      unfold statusCodeCheck
      rw [h]
      rfl
    simp [applyStatusFilter, e]
  · intro ar
    rcases ar with ⟨res, err⟩
    cases res with
    | none => rfl
    | some r =>
      cases err with
      | some e => rfl
      | none => rfl

/-- Witness for claim C5: allowed={200} with a 500 response whose body is
BODY — the scenario of `TestStatusCode` — yields exactly the error text
`500 Internal Server Error BODY`; likewise blocked={500}. -/
theorem status_filter_policy_witness :
    applyStatusFilter [200] []
      { res := some { statusCode := 500, status := "500 Internal Server Error", body := "BODY" },
        err := none }
      = { res := some { statusCode := 500, status := "500 Internal Server Error", body := "BODY" },
          err := some "500 Internal Server Error BODY" }
    ∧ applyStatusFilter [] [500]
      { res := some { statusCode := 500, status := "500 Internal Server Error", body := "BODY" },
        err := none }
      = { res := some { statusCode := 500, status := "500 Internal Server Error", body := "BODY" },
          err := some "500 Internal Server Error BODY" } := by
  constructor
  · have h := status_filter_policy.1 [200] []
      { statusCode := 500, status := "500 Internal Server Error", body := "BODY" } (by decide)
    rw [h]
    decide
  · have h := status_filter_policy.1 [] [500]
      { statusCode := 500, status := "500 Internal Server Error", body := "BODY" } (by decide)
    rw [h]
    decide

end QHttp
